import Mathlib

/-!
Verification development for the aquarium compatibility and stocking
recommendation engine (src/app.py).  The engine's data model and operations
are shallowly embedded below: Python floats become rationals, dicts become
structures or lookup functions, and the matrix is the indexed cell function
computed by the nested loops of pairwise_compatibility_matrix.
-/

/-- Boolean test that a character list occurs contiguously inside another,
mirroring the Python substring operator used on lowercased text. -/
def hasInfix : List Char → List Char → Bool
  | [], needle => needle.isEmpty
  | c :: cs, needle => needle.isPrefixOf (c :: cs) || hasInfix cs needle

/-- Substring containment on strings, mirroring Python's `needle in hay`. -/
def strContainsSub (hay needle : String) : Bool :=
  hasInfix hay.data needle.data

/-- A canonical species record as produced by load_fish_data: ranges are
[low, high] pairs of rationals, optional numerics are Option. -/
structure Fish where
  id : String
  name : String
  compatibility : List String
  min_tank_size : Option Rat
  adult_size : Option Rat
  temperature : Rat × Rat
  ph : Rat × Rat
  hardness : Rat × Rat
  temperament : String
  diet : String
  schooling : Bool
  min_group_size : Int
  image : String
deriving DecidableEq, Repr

/-- One selection row: the resolved species dict plus its "count" key, as
built in the compute route (fish_copy = base.copy(); fish_copy["count"]). -/
structure SelectedFish where
  fish : Fish
  count : Nat
deriving DecidableEq, Repr

/-- The four cell classifications of the pairwise matrix. -/
inductive Cell where
  | self
  | compatible
  | semiCompatible
  | incompatible
deriving DecidableEq, Repr

/-- The cell of pairwise_compatibility_matrix at indices (i, j): the nested
loop body of src/app.py lines 201-215, with the counts on the rows ignored. -/
def pairwise_compatibility_matrix (fishes : List SelectedFish)
    (i j : Fin fishes.length) : Cell :=
  if i = j then Cell.self
  else
    let id_i := fishes[i].fish.id
    let id_j := fishes[j].fish.id
    let i_list := fishes[i].fish.compatibility
    let j_list := fishes[j].fish.compatibility
    if id_j ∈ i_list ∧ id_i ∈ j_list then Cell.compatible
    else if id_j ∈ i_list ∨ id_i ∈ j_list then Cell.semiCompatible
    else Cell.incompatible

/-- The matrix as the list of rows returned by the Python function. -/
def matrix_rows (fishes : List SelectedFish) : List (List Cell) :=
  List.ofFn fun i => List.ofFn fun j => pairwise_compatibility_matrix fishes i j

/-- compute_range_overlap of src/app.py lines 218-225: max of the lows, min of
the highs, and the feasibility flag.  Python's max/min of an empty generator
raises, embedded as the none branch. -/
def compute_range_overlap : List (Rat × Rat) → Option (Rat × Rat × Bool)
  | [] => none
  | r :: rest =>
    let low := (rest.map Prod.fst).foldl max r.1
    let high := (rest.map Prod.snd).foldl min r.2
    some (low, high, decide (low ≤ high))

/-- ASCII lowering of a string, mirroring the Python .lower() calls. -/
def strLower (s : String) : String := ⟨s.data.map Char.toLower⟩

/-- The min_tank_size values kept by the list comprehension of
estimate_tank_size_litres: Python truthiness drops both None and 0. -/
def declared_min_sizes (l : List Fish) : List Rat :=
  l.filterMap fun f =>
    match f.min_tank_size with
    | some v => if v = 0 then none else some v
    | none => none

/-- base of estimate_tank_size_litres: max of the declared sizes, or the
10 L floor when no species declares one. -/
def base_of (l : List Fish) : Rat :=
  match declared_min_sizes l with
  | [] => 10
  | v :: vs => vs.foldl max v

/-- adult_size with Python's `or 5.0` fallback (None and 0 both give 5). -/
def adult_size_or_default (f : Fish) : Rat :=
  match f.adult_size with
  | some v => if v = 0 then 5 else v
  | none => 5

/-- waste_factor of one individual: 1.0, plus 0.25 for an "aggressive"
temperament substring, plus 0.6 for a heavy-waste name marker. -/
def waste_factor (f : Fish) : Rat :=
  let temp_str := strLower f.temperament
  let w1 : Rat := if strContainsSub temp_str "aggressive" then 1 + 1/4 else 1
  let name_l := strLower f.name
  if ["goldfish", "oscar", "koi", "pleco"].any (fun x => strContainsSub name_l x) then
    w1 + 6/10
  else w1

/-- The extra volume contributed by one individual: per_fish × waste_factor. -/
def fish_load (f : Fish) : Rat := (1/2) * adult_size_or_default f * waste_factor f

/-- The extra accumulator loop of estimate_tank_size_litres. -/
def extra_of (l : List Fish) : Rat := l.foldl (fun acc f => acc + fish_load f) 0

/-- estimate_tank_size_litres of src/app.py lines 227-256: max of the base
and the buffered extra, rounded up to the next multiple of 5. -/
def estimate_tank_size_litres (fishes_expanded : List Fish) : Int :=
  let base := base_of fishes_expanded
  let extra := extra_of fishes_expanded
  let recommended := max base (extra + base * (15/100))
  ⌈recommended / 5⌉ * 5

/-- Python's int() on a float value: truncation toward zero. -/
def pyInt (q : Rat) : Int := if 0 ≤ q then ⌊q⌋ else ⌈q⌉

/-- Number of upper-triangle positions classified "compatible", as counted
by the nested score loop of the compute route. -/
def compatible_pairs (selected : List SelectedFish) : Nat :=
  (Finset.univ.filter fun p : Fin selected.length × Fin selected.length =>
    p.1 < p.2 ∧ pairwise_compatibility_matrix selected p.1 p.2 = Cell.compatible).card

/-- Number of upper-triangle positions classified "semi-compatible". -/
def semi_pairs (selected : List SelectedFish) : Nat :=
  (Finset.univ.filter fun p : Fin selected.length × Fin selected.length =>
    p.1 < p.2 ∧ pairwise_compatibility_matrix selected p.1 p.2 = Cell.semiCompatible).card

/-- The mutual-overlap ratio score of src/app.py lines 403-413:
total_pairs = n(n-1)/2 for n > 1 else 1, then int() of the ratio. -/
def score_strategy_A (selected : List SelectedFish) : Int :=
  let n := selected.length
  let total_pairs : Rat := if 1 < n then (n : Rat) * ((n : Rat) - 1) / 2 else 1
  if 0 < total_pairs then
    pyInt (100 * ((compatible_pairs selected : Rat) + (1/2) * (semi_pairs selected : Rat)) / total_pairs)
  else 100

/-- The schooling / min-group warnings of collect_warnings. -/
def schooling_warnings (selected : List SelectedFish) : List String :=
  selected.filterMap fun sf =>
    if sf.fish.schooling then
      let min_group := sf.fish.min_group_size
      let count := sf.count
      if (count : Int) < min_group then
        let name := sf.fish.name
        some s!"{name} typically needs a group of {min_group}. You selected {count}."
      else none
    else none

/-- Upper-triangle incompatible positions as name pairs, each pair sorted,
in loop order (before Python's set removes duplicates). -/
def incompatible_pair_names (selected : List SelectedFish)
    (matrix : Fin selected.length → Fin selected.length → Cell) :
    List (String × String) :=
  (List.finRange selected.length).flatMap fun i =>
    (List.finRange selected.length).filterMap fun j =>
      if i < j ∧ matrix i j = Cell.incompatible then
        let a := selected[i].fish.name
        let b := selected[j].fish.name
        some (if a ≤ b then (a, b) else (b, a))
      else none

/-- Python's sorted(set(...)) over name pairs: duplicates removed, then the
list sorted lexicographically. -/
def sorted_unique_pairs (ps : List (String × String)) : List (String × String) :=
  ps.eraseDups.mergeSort fun a b => a.1 < b.1 || (a.1 == b.1 && a.2 ≤ b.2)

/-- Names of species whose temperament contains "aggressive". -/
def aggressive_names (selected : List SelectedFish) : List String :=
  (selected.filter fun sf =>
    strContainsSub (strLower sf.fish.temperament) "aggressive").map fun sf => sf.fish.name

/-- collect_warnings of src/app.py lines 258-303 over the selection, the
matrix and the three overlap triples. -/
def collect_warnings (selected : List SelectedFish)
    (matrix : Fin selected.length → Fin selected.length → Cell)
    (t p h : Rat × Rat × Bool) : List String :=
  let ws1 := schooling_warnings selected
  let ws2 :=
    (if !t.2.2 then ["Selected fishes do not share a common temperature range."] else []) ++
    (if !p.2.2 then ["Selected fishes do not share a common pH range."] else []) ++
    (if !h.2.2 then ["Selected fishes do not share a common hardness (dGH) range."] else [])
  let pairs := sorted_unique_pairs (incompatible_pair_names selected matrix)
  let ws3 :=
    if pairs = [] then []
    else ["Incompatible pairs: " ++
      String.intercalate "; " (pairs.map fun pr => pr.1 ++ " × " ++ pr.2)]
  let aggr := aggressive_names selected
  let ws4 :=
    if 1 < aggr.length then
      ["Multiple aggressive/territorial species selected: " ++ String.intercalate ", " aggr]
    else []
  ws1 ++ ws2 ++ ws3 ++ ws4

/-- The id_map dict comprehension {f["id"]: f for f in fishes_all}: on
duplicate ids the last-loaded record wins, so lookup scans the reversal. -/
def dict_lookup (fishes_all : List Fish) (fid : String) : Option Fish :=
  fishes_all.reverse.find? fun f => f.id == fid

/-- Defensive count parsing: max(1, int(count_str or "1")) with an exception
falling back to 1. -/
def parse_count (s : String) : Nat :=
  let s1 := if s = "" then "1" else s
  match s1.toInt? with
  | some n => (max 1 n).toNat
  | none => 1

/-- The selection loop of the compute route: unknown ids are skipped, each
kept entry becomes the catalog record plus its parsed count. -/
def resolve_selection (id_map : String → Option Fish)
    (entries : List (String × String)) : List SelectedFish :=
  entries.filterMap fun e =>
    (id_map e.1).map fun base => SelectedFish.mk base (parse_count e.2)

/-- The expanded list: each resolved entry's base record repeated count
times, in selection order. -/
def expand_selection (id_map : String → Option Fish)
    (entries : List (String × String)) : List Fish :=
  (resolve_selection id_map entries).flatMap fun sf => List.replicate sf.count sf.fish

/-- The report assembled by the compute route for a non-empty selection. -/
structure StockingReport where
  fishes : List SelectedFish
  matrix : List (List Cell)
  temperature_overlap : Option (Rat × Rat × Bool)
  ph_overlap : Option (Rat × Rat × Bool)
  hardness_overlap : Option (Rat × Rat × Bool)
  tank_l : Int
  tank_gal : Rat
  warnings : List String
  score : Int

/-- Python's round(x, 1) on the gallon conversion, one decimal place. -/
def round_to_tenth (q : Rat) : Rat := ((round (q * 10) : Int) : Rat) / 10

/-- The POST branch of the compute route (src/app.py lines 352-437): resolve
the selection, reject an empty result as a user input error, otherwise build
the full report.  The selection is non-empty in the else branch, so the
overlap getD defaults are never read. -/
def compute (fishes_all : List Fish) (selected_ids selected_counts : List String) :
    Except String StockingReport :=
  let entries := selected_ids.zip selected_counts
  let selected := resolve_selection (dict_lookup fishes_all) entries
  if selected = [] then
    Except.error "Selected fishes not found. Please choose from the list."
  else
    let expanded := expand_selection (dict_lookup fishes_all) entries
    let tOv := compute_range_overlap (selected.map fun sf => sf.fish.temperature)
    let pOv := compute_range_overlap (selected.map fun sf => sf.fish.ph)
    let hOv := compute_range_overlap (selected.map fun sf => sf.fish.hardness)
    let tank_l := estimate_tank_size_litres expanded
    Except.ok
      { fishes := selected
        matrix := matrix_rows selected
        temperature_overlap := tOv
        ph_overlap := pOv
        hardness_overlap := hOv
        tank_l := tank_l
        tank_gal := round_to_tenth ((tank_l : Rat) * (264172 / 1000000))
        warnings := collect_warnings selected (pairwise_compatibility_matrix selected)
          (tOv.getD (0, 0, true)) (pOv.getD (0, 0, true)) (hOv.getD (0, 0, true))
        score := score_strategy_A selected }

/-- The min-group-size resolution of load_fish_data lines 129-133.  Each of
the three key aliases is Option (Option Int): outer none means the key is
absent, inner Option Int abstracts whether Python int() accepts the present
value.  An absent chain falls through to the literal default 1; only a
present value that int() rejects reaches the schooling-dependent fallback. -/
def resolve_min_group_size (mgs mg mG : Option (Option Int)) (schooling : Bool) : Int :=
  match mgs.getD (mg.getD (mG.getD (some 1))) with
  | some n => n
  | none => if schooling then 6 else 1

/-- Modelled from the spec: the explicit tank profile accompanying a
selection when score strategy B is used; strategy B itself is absent from
src/app.py, so it is reconstructed from the specification text. -/
structure TankProfile where
  temperature : Rat
  ph : Rat
  volume : Rat
  tankType : String
deriving DecidableEq, Repr

/-- Modelled from the spec: a species "is aggressive" when its temperament
text contains "aggressive" but not "semi-aggressive". -/
def is_aggressive (f : Fish) : Bool :=
  strContainsSub (strLower f.temperament) "aggressive" &&
    !(strContainsSub (strLower f.temperament) "semi-aggressive")

/-- Modelled from the spec: temperament text containing "semi-aggressive". -/
def is_semi_aggressive (f : Fish) : Bool :=
  strContainsSub (strLower f.temperament) "semi-aggressive"

/-- Modelled from the spec: temperament text containing "peaceful". -/
def is_peaceful (f : Fish) : Bool :=
  strContainsSub (strLower f.temperament) "peaceful"

/-- Modelled from the spec: stocking-load penalty, min(40, excess × 0.5)
when the summed adult sizes of all individuals exceed the tank volume. -/
def stocking_load_penalty (sel : List SelectedFish) (pr : TankProfile) : Rat :=
  let totalSize := (sel.map fun sf => (sf.count : Rat) * adult_size_or_default sf.fish).sum
  let excess := totalSize - pr.volume
  if 0 < excess then min 40 (excess * (1/2)) else 0

/-- Modelled from the spec: count of species whose temperature range
excludes the profile's target temperature. -/
def temp_excluded_count (sel : List SelectedFish) (pr : TankProfile) : Nat :=
  sel.countP fun sf =>
    decide (pr.temperature < sf.fish.temperature.1) ||
      decide (sf.fish.temperature.2 < pr.temperature)

/-- Modelled from the spec: count of species whose pH range excludes the
profile's target pH. -/
def ph_excluded_count (sel : List SelectedFish) (pr : TankProfile) : Nat :=
  sel.countP fun sf =>
    decide (pr.ph < sf.fish.ph.1) || decide (sf.fish.ph.2 < pr.ph)

/-- Modelled from the spec: count of species whose own minimum required
volume exceeds the profile's tank volume. -/
def volume_exceeded_count (sel : List SelectedFish) (pr : TankProfile) : Nat :=
  sel.countP fun sf =>
    match sf.fish.min_tank_size with
    | some v => decide (pr.volume < v)
    | none => false

/-- Modelled from the spec: some selected species is aggressive while a
different row is peaceful. -/
def aggressive_with_peaceful (sel : List SelectedFish) : Bool :=
  decide (∃ i : Fin sel.length, ∃ j : Fin sel.length,
    i ≠ j ∧ is_aggressive (sel.get i).fish ∧ is_peaceful (sel.get j).fish)

/-- Modelled from the spec: some selected species is semi-aggressive while a
different row is peaceful. -/
def semi_aggressive_with_peaceful (sel : List SelectedFish) : Bool :=
  decide (∃ i : Fin sel.length, ∃ j : Fin sel.length,
    i ≠ j ∧ is_semi_aggressive (sel.get i).fish ∧ is_peaceful (sel.get j).fish)

/-- Modelled from the spec: a hardcoded species-pair rule matches when both
ids of the rule occur in the selection. -/
def rule_matches (sel : List SelectedFish) (rule : String × String) : Bool :=
  (sel.any fun sf => sf.fish.id == rule.1) && (sel.any fun sf => sf.fish.id == rule.2)

/-- Modelled from the spec: 10 points per matching hardcoded rule, evaluated
once per rule of the fixed table, not once per fish. -/
def hardcoded_rule_penalty (rules : List (String × String))
    (sel : List SelectedFish) : Rat :=
  10 * ((rules.filter (rule_matches sel)).length : Rat)

/-- Modelled from the spec: a species-only tank with more than one distinct
species selected. -/
def species_only_violation (sel : List SelectedFish) (pr : TankProfile) : Bool :=
  pr.tankType == "species-only" && decide (1 < (sel.map fun sf => sf.fish.id).eraseDups.length)

/-- Modelled from the spec: a community tank containing an aggressive
species. -/
def community_aggressive_violation (sel : List SelectedFish) (pr : TankProfile) : Bool :=
  pr.tankType == "community" && sel.any fun sf => is_aggressive sf.fish

/-- Modelled from the spec: score strategy B, penalty accumulation — start
at 100, subtract each listed penalty in turn, clamp to [0, 100] at the end
(not per-step). -/
def score_strategy_B (rules : List (String × String)) (sel : List SelectedFish)
    (pr : TankProfile) : Rat :=
  let s0 : Rat := 100
  let s1 := s0 - stocking_load_penalty sel pr
  let s2 := s1 - 8 * (temp_excluded_count sel pr : Rat)
  let s3 := s2 - 8 * (ph_excluded_count sel pr : Rat)
  let s4 := s3 - 6 * (volume_exceeded_count sel pr : Rat)
  let s5 := s4 - (if aggressive_with_peaceful sel then 25 else 0)
  let s6 := s5 - (if semi_aggressive_with_peaceful sel then 10 else 0)
  let s7 := s6 - hardcoded_rule_penalty rules sel
  let s8 := s7 - (if species_only_violation sel pr then 10 else 0)
  let s9 := s8 - (if community_aggressive_violation sel pr then 10 else 0)
  max 0 (min 100 s9)

/-- Modelled from the spec: the total of the nine independent penalties of
score strategy B. -/
def total_penalty (rules : List (String × String)) (sel : List SelectedFish)
    (pr : TankProfile) : Rat :=
  stocking_load_penalty sel pr +
  8 * (temp_excluded_count sel pr : Rat) +
  8 * (ph_excluded_count sel pr : Rat) +
  6 * (volume_exceeded_count sel pr : Rat) +
  (if aggressive_with_peaceful sel then 25 else 0) +
  (if semi_aggressive_with_peaceful sel then 10 else 0) +
  hardcoded_rule_penalty rules sel +
  (if species_only_violation sel pr then 10 else 0) +
  (if community_aggressive_violation sel pr then 10 else 0)

/-! Sample catalog records used as concrete inputs. -/

/-- A plain species with every optional field defaulted. -/
def fishPlain : Fish :=
  { id := "p", name := "plain", compatibility := [],
    min_tank_size := none, adult_size := none,
    temperature := (22, 26), ph := (6, 8), hardness := (1, 12),
    temperament := "Peaceful", diet := "Omnivore", schooling := false,
    min_group_size := 1, image := "" }

/-- A tiny species declaring a very small tank size. -/
def fishSmallTank : Fish :=
  { fishPlain with
    id := "s"
    name := "small"
    min_tank_size := some 1
    adult_size := some 1 }

/-- Species a, claiming to tolerate b and c. -/
def fishA : Fish := { fishPlain with id := "a", name := "alpha", compatibility := ["b", "c"] }

/-- Species b, claiming to tolerate a only. -/
def fishB : Fish := { fishPlain with id := "b", name := "beta", compatibility := ["a"] }

/-- Species c, claiming to tolerate a only. -/
def fishC : Fish := { fishPlain with id := "c", name := "gamma", compatibility := ["a"] }

/-- Species d, claiming to tolerate b only. -/
def fishD : Fish := { fishPlain with id := "d", name := "delta", compatibility := ["b"] }

/-- Species z, whose compatibility list contains its own id. -/
def fishSelf : Fish := { fishPlain with id := "z", name := "zeta", compatibility := ["z"] }

/-! Claim theorems. -/

/-- C9 counterexample: a schooling record with no min-group-size key resolves
to 1, not to the claimed 6. -/
theorem resolve_min_group_size_no_key_schooling_is_one :
    resolve_min_group_size none none none true = 1 ∧
    resolve_min_group_size none none none true ≠ 6 := by
  exact ⟨rfl, by decide⟩

/-- C9 (amended): when no min-group-size key resolves, the normalizer
assigns 1 regardless of the schooling flag; the 6-if-schooling-else-1
default applies only when a present key's value fails integer parsing. -/
theorem resolve_min_group_size_defaults (mg mG : Option (Option Int)) (schooling : Bool) :
    resolve_min_group_size none none none schooling = 1 ∧
    resolve_min_group_size (some none) mg mG schooling = (if schooling then 6 else 1) :=
  ⟨rfl, rfl⟩

/-- C2: strategy B computes the score by penalty accumulation — the
sequential subtractions equal 100 minus the sum of the nine independent
penalties, clamped to [0, 100] at the end. -/
theorem score_strategy_B_penalty_accumulation (rules : List (String × String))
    (sel : List SelectedFish) (pr : TankProfile) :
    score_strategy_B rules sel pr = max 0 (min 100 (100 - total_penalty rules sel pr)) ∧
    0 ≤ score_strategy_B rules sel pr ∧ score_strategy_B rules sel pr ≤ 100 := by
  have h : score_strategy_B rules sel pr =
      max 0 (min 100 (100 - total_penalty rules sel pr)) := by
    simp only [score_strategy_B, total_penalty]
    congr 2
    ring
  refine ⟨h, ?_, ?_⟩
  · rw [h]
    exact le_max_left 0 _
  · rw [h]
    exact max_le (by norm_num) (min_le_left 100 _)

/-- C4: the pairwise matrix is symmetric — matrix[i][j] equals matrix[j][i]
for every selection list, duplicated rows included. -/
theorem pairwise_matrix_symmetric (selected : List SelectedFish)
    (i j : Fin selected.length) :
    pairwise_compatibility_matrix selected i j = pairwise_compatibility_matrix selected j i := by
  unfold pairwise_compatibility_matrix
  by_cases hij : i = j
  · simp [hij]
  · have hji : ¬ j = i := fun h => hij h.symm
    simp only [hij, hji, if_false]
    split_ifs <;> tauto

/-- C1: the code's strategy-A score for a single selection row is 0, not the
100 the specification states (total_pairs is 1, the pair counts are 0, and
the int(…) branch computes 0; the `else 100` fallback is unreachable). -/
theorem score_strategy_A_single_row (sf : SelectedFish) :
    score_strategy_A [sf] = 0 := by
  have hc : compatible_pairs [sf] = 0 := by
    apply Finset.card_eq_zero.mpr
    apply Finset.filter_eq_empty_iff.mpr
    intro pr _
    intro hpr
    have h1 : pr.1.val < 1 := pr.1.isLt
    have h2 : pr.2.val < 1 := pr.2.isLt
    have hlt : pr.1.val < pr.2.val := hpr.1
    omega
  have hs : semi_pairs [sf] = 0 := by
    apply Finset.card_eq_zero.mpr
    apply Finset.filter_eq_empty_iff.mpr
    intro pr _
    intro hpr
    have h1 : pr.1.val < 1 := pr.1.isLt
    have h2 : pr.2.val < 1 := pr.2.isLt
    have hlt : pr.1.val < pr.2.val := hpr.1
    omega
  simp only [score_strategy_A, hc, hs, List.length_singleton]
  norm_num [pyInt]

/-- Off-diagonal cells written out as a single conditional. -/
theorem matrix_cell_off_diag (selected : List SelectedFish)
    (i j : Fin selected.length) (hij : i ≠ j) :
    pairwise_compatibility_matrix selected i j =
      (if selected[j].fish.id ∈ selected[i].fish.compatibility ∧
          selected[i].fish.id ∈ selected[j].fish.compatibility then Cell.compatible
       else if selected[j].fish.id ∈ selected[i].fish.compatibility ∨
          selected[i].fish.id ∈ selected[j].fish.compatibility then Cell.semiCompatible
       else Cell.incompatible) := by
  unfold pairwise_compatibility_matrix
  rw [if_neg hij]

/-- C3: for i ≠ j the cell is compatible exactly when each species' id is in
the other's compatibility list, semi-compatible exactly when one of the two
membership tests holds, incompatible exactly when neither does; the diagonal
is always self. -/
theorem pairwise_matrix_classification (selected : List SelectedFish)
    (i j : Fin selected.length) :
    (i = j → pairwise_compatibility_matrix selected i j = Cell.self) ∧
    (i ≠ j →
      (pairwise_compatibility_matrix selected i j = Cell.compatible ↔
        selected[j].fish.id ∈ selected[i].fish.compatibility ∧
          selected[i].fish.id ∈ selected[j].fish.compatibility) ∧
      (pairwise_compatibility_matrix selected i j = Cell.semiCompatible ↔
        Xor' (selected[j].fish.id ∈ selected[i].fish.compatibility)
          (selected[i].fish.id ∈ selected[j].fish.compatibility)) ∧
      (pairwise_compatibility_matrix selected i j = Cell.incompatible ↔
        selected[j].fish.id ∉ selected[i].fish.compatibility ∧
          selected[i].fish.id ∉ selected[j].fish.compatibility)) := by
  constructor
  · intro hij
    simp [pairwise_compatibility_matrix, hij]
  · intro hij
    rw [matrix_cell_off_diag selected i j hij]
    split_ifs with h1 h2
    · refine ⟨iff_of_true rfl h1, ?_, ?_⟩
      · exact iff_of_false (by simp)
          (fun hx => hx.elim (fun ha => ha.2 h1.2) (fun hb => hb.2 h1.1))
      · exact iff_of_false (by simp) (fun hx => hx.1 h1.1)
    · refine ⟨iff_of_false (by simp) h1, iff_of_true rfl ?_, ?_⟩
      · rcases h2 with ha | hb
        · exact Or.inl ⟨ha, fun hb => h1 ⟨ha, hb⟩⟩
        · exact Or.inr ⟨hb, fun ha => h1 ⟨ha, hb⟩⟩
      · exact iff_of_false (by simp) (fun hx => h2.elim hx.1 hx.2)
    · refine ⟨iff_of_false (by simp) h1, ?_, iff_of_true rfl ?_⟩
      · exact iff_of_false (by simp)
          (fun hx => hx.elim (fun ha => h2 (Or.inl ha.1)) (fun hb => h2 (Or.inr hb.1)))
      · exact ⟨fun ha => h2 (Or.inl ha), fun hb => h2 (Or.inr hb)⟩

/-- C3 witness: a pair where only one species references the other is
classified semi-compatible. -/
theorem pairwise_matrix_classification_witness :
    pairwise_compatibility_matrix [⟨fishB, 1⟩, ⟨fishD, 1⟩] ⟨0, by decide⟩ ⟨1, by decide⟩ =
      Cell.semiCompatible := by
  have h := (pairwise_matrix_classification [⟨fishB, 1⟩, ⟨fishD, 1⟩]
    ⟨0, by decide⟩ ⟨1, by decide⟩).2 (by decide)
  rw [h.2.1]
  refine Or.inr ⟨by decide, by decide⟩

/-- Each row of the resolved selection is exactly the catalog record stored
under its own id: the selection loop inserts id_map[fid] unchanged, and the
id_map maps f["id"] to f. -/
theorem resolve_selection_fish_lookup (fishes_all : List Fish)
    (entries : List (String × String)) (sf : SelectedFish)
    (hmem : sf ∈ resolve_selection (dict_lookup fishes_all) entries) :
    dict_lookup fishes_all sf.fish.id = some sf.fish := by
  simp only [resolve_selection, List.mem_filterMap] at hmem
  obtain ⟨e, he, hsome⟩ := hmem
  cases hfd : dict_lookup fishes_all e.1 with
  | none => rw [hfd] at hsome; simp at hsome
  | some base =>
    rw [hfd] at hsome
    simp only [Option.map_some'] at hsome
    have hbase : sf.fish = base := by
      cases hsome
      rfl
    have hfind : fishes_all.reverse.find? (fun f => f.id == e.1) = some base := hfd
    have hb := List.find?_some hfind
    have hid : base.id = e.1 := eq_of_beq (by simpa using hb)
    rw [hbase, hid, hfd]

/-- C10: two distinct rows of a resolved selection that carry the same
species id hold the same catalog record, so the cell between them is
compatible exactly when the species lists its own id and incompatible
otherwise — never semi-compatible. -/
theorem duplicate_rows_cell (fishes_all : List Fish) (entries : List (String × String))
    (i j : Fin (resolve_selection (dict_lookup fishes_all) entries).length)
    (hij : i ≠ j)
    (hid : (resolve_selection (dict_lookup fishes_all) entries)[i].fish.id =
           (resolve_selection (dict_lookup fishes_all) entries)[j].fish.id) :
    (pairwise_compatibility_matrix (resolve_selection (dict_lookup fishes_all) entries) i j =
      if (resolve_selection (dict_lookup fishes_all) entries)[i].fish.id ∈
          (resolve_selection (dict_lookup fishes_all) entries)[i].fish.compatibility
        then Cell.compatible else Cell.incompatible) ∧
    pairwise_compatibility_matrix (resolve_selection (dict_lookup fishes_all) entries) i j ≠
      Cell.semiCompatible := by
  have h1 : dict_lookup fishes_all
      (resolve_selection (dict_lookup fishes_all) entries)[i].fish.id =
      some (resolve_selection (dict_lookup fishes_all) entries)[i].fish :=
    resolve_selection_fish_lookup fishes_all entries _ (List.getElem_mem _)
  have h2 : dict_lookup fishes_all
      (resolve_selection (dict_lookup fishes_all) entries)[j].fish.id =
      some (resolve_selection (dict_lookup fishes_all) entries)[j].fish :=
    resolve_selection_fish_lookup fishes_all entries _ (List.getElem_mem _)
  rw [hid, h2] at h1
  have heq : (resolve_selection (dict_lookup fishes_all) entries)[i].fish =
      (resolve_selection (dict_lookup fishes_all) entries)[j].fish :=
    (Option.some_injective _ h1).symm
  rw [matrix_cell_off_diag _ i j hij, ← heq]
  split_ifs <;> simp_all

/-- C10 witness: the same self-listing species selected twice yields a
compatible off-diagonal cell. -/
theorem duplicate_rows_cell_witness :
    pairwise_compatibility_matrix
      (resolve_selection (dict_lookup [fishSelf]) [("z", "1"), ("z", "2")])
      ⟨0, by decide⟩ ⟨1, by decide⟩ = Cell.compatible := by
  have h := duplicate_rows_cell [fishSelf] [("z", "1"), ("z", "2")]
    ⟨0, by decide⟩ ⟨1, by decide⟩ (by decide) (by decide)
  rw [h.1]
  decide

/-- The seed of a left max-fold bounds the result from below. -/
theorem le_foldl_max (x : Rat) (l : List Rat) : x ≤ l.foldl max x := by
  induction l generalizing x with
  | nil => exact le_refl x
  | cons a t ih => exact le_trans (le_max_left x a) (ih (max x a))

/-- Every list element bounds a left max-fold from below. -/
theorem mem_le_foldl_max (x : Rat) (l : List Rat) : ∀ y ∈ l, y ≤ l.foldl max x := by
  induction l generalizing x with
  | nil => intro y hy; cases hy
  | cons a t ih =>
    intro y hy
    rcases List.mem_cons.mp hy with rfl | hyt
    · exact le_trans (le_max_right x y) (le_foldl_max (max x y) t)
    · exact ih (max x a) y hyt

/-- A left max-fold returns its seed or one of the list elements. -/
theorem foldl_max_mem (x : Rat) (l : List Rat) : l.foldl max x ∈ x :: l := by
  induction l generalizing x with
  | nil => simp
  | cons a t ih =>
    have h := ih (max x a)
    rcases List.mem_cons.mp h with heq | hmem
    · rcases max_choice x a with hx | ha
      · exact List.mem_cons.mpr (Or.inl (by rw [List.foldl_cons, heq, hx]))
      · exact List.mem_cons.mpr (Or.inr (List.mem_cons.mpr (Or.inl
          (by rw [List.foldl_cons, heq, ha]))))
    · exact List.mem_cons.mpr (Or.inr (List.mem_cons.mpr (Or.inr hmem)))

/-- Any member of the seeded list bounds the max-fold from below. -/
theorem foldl_max_ge_of_mem_cons (x : Rat) (l : List Rat) (y : Rat)
    (hy : y ∈ x :: l) : y ≤ l.foldl max x := by
  rcases List.mem_cons.mp hy with rfl | hm
  · exact le_foldl_max y l
  · exact mem_le_foldl_max x l y hm

/-- Max-folds over permuted seeded lists agree. -/
theorem foldl_max_eq_of_perm (x x' : Rat) (l l' : List Rat)
    (hp : (x :: l).Perm (x' :: l')) : l.foldl max x = l'.foldl max x' := by
  apply le_antisymm
  · exact foldl_max_ge_of_mem_cons x' l' _ (hp.mem_iff.mp (foldl_max_mem x l))
  · exact foldl_max_ge_of_mem_cons x l _ (hp.symm.mem_iff.mp (foldl_max_mem x' l'))

/-- The seed of a left min-fold bounds the result from above. -/
theorem foldl_min_le (x : Rat) (l : List Rat) : l.foldl min x ≤ x := by
  induction l generalizing x with
  | nil => exact le_refl x
  | cons a t ih => exact le_trans (ih (min x a)) (min_le_left x a)

/-- A left min-fold is below every list element. -/
theorem foldl_min_le_mem (x : Rat) (l : List Rat) : ∀ y ∈ l, l.foldl min x ≤ y := by
  induction l generalizing x with
  | nil => intro y hy; cases hy
  | cons a t ih =>
    intro y hy
    rcases List.mem_cons.mp hy with rfl | hyt
    · exact le_trans (foldl_min_le (min x y) t) (min_le_right x y)
    · exact ih (min x a) y hyt

/-- A left min-fold returns its seed or one of the list elements. -/
theorem foldl_min_mem (x : Rat) (l : List Rat) : l.foldl min x ∈ x :: l := by
  induction l generalizing x with
  | nil => simp
  | cons a t ih =>
    have h := ih (min x a)
    rcases List.mem_cons.mp h with heq | hmem
    · rcases min_choice x a with hx | ha
      · exact List.mem_cons.mpr (Or.inl (by rw [List.foldl_cons, heq, hx]))
      · exact List.mem_cons.mpr (Or.inr (List.mem_cons.mpr (Or.inl
          (by rw [List.foldl_cons, heq, ha]))))
    · exact List.mem_cons.mpr (Or.inr (List.mem_cons.mpr (Or.inr hmem)))

/-- Any member of the seeded list bounds the min-fold from above. -/
theorem foldl_min_le_of_mem_cons (x : Rat) (l : List Rat) (y : Rat)
    (hy : y ∈ x :: l) : l.foldl min x ≤ y := by
  rcases List.mem_cons.mp hy with rfl | hm
  · exact foldl_min_le y l
  · exact foldl_min_le_mem x l y hm

/-- Min-folds over permuted seeded lists agree. -/
theorem foldl_min_eq_of_perm (x x' : Rat) (l l' : List Rat)
    (hp : (x :: l).Perm (x' :: l')) : l.foldl min x = l'.foldl min x' := by
  apply le_antisymm
  · exact foldl_min_le_of_mem_cons x l _ (hp.symm.mem_iff.mp (foldl_min_mem x' l'))
  · exact foldl_min_le_of_mem_cons x' l' _ (hp.mem_iff.mp (foldl_min_mem x l))

/-- C5: on every non-empty list of [low, high] pairs the overlap calculator
returns some (low*, high*, feasible) where low* is the greatest of the lows,
high* the least of the highs, feasible ↔ low* ≤ high*, and the result is
invariant under any reordering of the input list. -/
theorem compute_range_overlap_spec (rs rs' : List (Rat × Rat)) (h : rs ≠ [])
    (hperm : rs.Perm rs') :
    ∃ low high feas,
      compute_range_overlap rs = some (low, high, feas) ∧
      low ∈ rs.map Prod.fst ∧ (∀ x ∈ rs.map Prod.fst, x ≤ low) ∧
      high ∈ rs.map Prod.snd ∧ (∀ y ∈ rs.map Prod.snd, high ≤ y) ∧
      (feas = true ↔ low ≤ high) ∧
      compute_range_overlap rs' = compute_range_overlap rs := by
  match rs, h with
  | r :: rest, _ =>
    match rs', hperm with
    | [], hperm => exact absurd hperm.symm (by simp)
    | r' :: rest', hperm =>
      refine ⟨(rest.map Prod.fst).foldl max r.1, (rest.map Prod.snd).foldl min r.2,
        _, rfl, ?_, ?_, ?_, ?_, decide_eq_true_iff, ?_⟩
      · exact foldl_max_mem r.1 (rest.map Prod.fst)
      · exact fun x hx => foldl_max_ge_of_mem_cons r.1 (rest.map Prod.fst) x hx
      · exact foldl_min_mem r.2 (rest.map Prod.snd)
      · exact fun y hy => foldl_min_le_of_mem_cons r.2 (rest.map Prod.snd) y hy
      · have hpf : (r.1 :: rest.map Prod.fst).Perm (r'.1 :: rest'.map Prod.fst) :=
          hperm.map Prod.fst
        have hps : (r.2 :: rest.map Prod.snd).Perm (r'.2 :: rest'.map Prod.snd) :=
          hperm.map Prod.snd
        show some _ = some _
        rw [foldl_max_eq_of_perm _ _ _ _ hpf.symm, foldl_min_eq_of_perm _ _ _ _ hps.symm]

/-- C5 witness: the overlap of three concrete temperature ranges is the same
after reordering them. -/
theorem compute_range_overlap_spec_witness :
    (([(20, 24), (23, 27), (26, 30)] : List (Rat × Rat)) ≠ []) ∧
    compute_range_overlap [((26 : Rat), (30 : Rat)), (20, 24), (23, 27)] =
      compute_range_overlap [((20 : Rat), (24 : Rat)), (23, 27), (26, 30)] := by
  refine ⟨by simp, ?_⟩
  obtain ⟨low, high, feas, hsome, hmem, hub, hmem2, hlb, hfeas, hres⟩ :=
    compute_range_overlap_spec [(20, 24), (23, 27), (26, 30)] [(26, 30), (20, 24), (23, 27)]
      (by simp) (by decide)
  exact hres

/-- C8: when the resolved selection is empty the compute route returns the
input-validation error and no report: none of the downstream computations
(matrix, overlaps, volume, warnings, score) contribute to the result. -/
theorem compute_rejects_empty_selection (fishes_all : List Fish)
    (selected_ids selected_counts : List String)
    (h : resolve_selection (dict_lookup fishes_all) (selected_ids.zip selected_counts) = []) :
    compute fishes_all selected_ids selected_counts =
      Except.error "Selected fishes not found. Please choose from the list." := by
  simp [compute, h]

/-- C8 witness: a selection whose only id is unknown resolves to the empty
list and compute reports the validation failure. -/
theorem compute_rejects_empty_selection_witness :
    resolve_selection (dict_lookup ([] : List Fish)) ((["x"] : List String).zip ["1"]) = [] ∧
    compute [] ["x"] ["1"] =
      Except.error "Selected fishes not found. Please choose from the list." :=
  ⟨rfl, compute_rejects_empty_selection [] ["x"] ["1"] rfl⟩

/-- Appending one individual adds exactly its load to the extra total. -/
theorem extra_of_append (l : List Fish) (f : Fish) :
    extra_of (l ++ [f]) = extra_of l + fish_load f := by
  simp [extra_of, List.foldl_append]

/-- C6 counterexample: one defaulted fish alone is recommended 10 L, but
appending a tiny fish that declares min_tank_size = 1 drops the structural
base from the 10 L floor to 1 L and the recommendation falls to 5 L, so the
estimator is not monotone in the number of individuals. -/
theorem estimate_tank_size_not_monotone :
    estimate_tank_size_litres [fishPlain] = 10 ∧
    estimate_tank_size_litres [fishPlain, fishSmallTank] = 5 ∧
    ¬ (estimate_tank_size_litres [fishPlain] ≤
        estimate_tank_size_litres [fishPlain, fishSmallTank]) := by
  have hadP : adult_size_or_default fishPlain = 5 := by decide
  have hwfP : waste_factor fishPlain = 1 := by decide
  have hloadP : fish_load fishPlain = 5 / 2 := by
    simp only [fish_load, hadP, hwfP]
    norm_num
  have hadS : adult_size_or_default fishSmallTank = 1 := by decide
  have hwfS : waste_factor fishSmallTank = 1 := by decide
  have hloadS : fish_load fishSmallTank = 1 / 2 := by
    simp only [fish_load, hadS, hwfS]
    norm_num
  have hb1 : base_of [fishPlain] = 10 := by decide
  have hb2 : base_of [fishPlain, fishSmallTank] = 1 := by decide
  have he1 : extra_of [fishPlain] = 5 / 2 := by
    have h0 : extra_of [fishPlain] = 0 + fish_load fishPlain := rfl
    rw [h0, hloadP]
    norm_num
  have he2 : extra_of [fishPlain, fishSmallTank] = 3 := by
    have h0 : extra_of [fishPlain, fishSmallTank] =
        0 + fish_load fishPlain + fish_load fishSmallTank := rfl
    rw [h0, hloadP, hloadS]
    norm_num
  have h1 : estimate_tank_size_litres [fishPlain] = 10 := by
    simp only [estimate_tank_size_litres, hb1, he1]
    rw [max_eq_left (by norm_num)]
    have hc : ⌈(10 : Rat) / 5⌉ = 2 := by
      rw [Int.ceil_eq_iff]
      constructor <;> norm_num
    rw [hc]
    norm_num
  have h2 : estimate_tank_size_litres [fishPlain, fishSmallTank] = 5 := by
    simp only [estimate_tank_size_litres, hb2, he2]
    rw [max_eq_right (by norm_num)]
    have hc : ⌈((3 : Rat) + 1 * (15 / 100)) / 5⌉ = 1 := by
      rw [Int.ceil_eq_iff]
      constructor <;> norm_num
    rw [hc]
    norm_num
  refine ⟨h1, h2, ?_⟩
  rw [h1, h2]
  norm_num

/-- C6 (amended): appending one individual never lowers the recommendation
provided the appended fish does not lower the structural base (as the 10 L
floor can otherwise be displaced by a smaller declared min_tank_size) and
its own volume contribution is nonnegative. -/
theorem estimate_tank_size_mono (l : List Fish) (f : Fish) (h : l ≠ [])
    (hbase : base_of l ≤ base_of (l ++ [f])) (hload : 0 ≤ fish_load f) :
    estimate_tank_size_litres l ≤ estimate_tank_size_litres (l ++ [f]) := by
  have hextra : extra_of l ≤ extra_of (l ++ [f]) := by
    rw [extra_of_append]
    linarith
  have hrec : max (base_of l) (extra_of l + base_of l * (15 / 100)) ≤
      max (base_of (l ++ [f])) (extra_of (l ++ [f]) + base_of (l ++ [f]) * (15 / 100)) := by
    apply max_le_max hbase
    have hmul : base_of l * (15 / 100) ≤ base_of (l ++ [f]) * (15 / 100) :=
      mul_le_mul_of_nonneg_right hbase (by norm_num)
    linarith
  have hdiv : max (base_of l) (extra_of l + base_of l * (15 / 100)) / 5 ≤
      max (base_of (l ++ [f])) (extra_of (l ++ [f]) + base_of (l ++ [f]) * (15 / 100)) / 5 :=
    (div_le_div_iff_of_pos_right (by norm_num)).mpr hrec
  have hceil := Int.ceil_le_ceil hdiv
  simp only [estimate_tank_size_litres]
  exact mul_le_mul_of_nonneg_right hceil (by norm_num)

/-- C6 witness: duplicating the defaulted fish satisfies both side conditions
and indeed does not lower the recommendation. -/
theorem estimate_tank_size_mono_witness :
    base_of [fishPlain] ≤ base_of ([fishPlain] ++ [fishPlain]) ∧
    0 ≤ fish_load fishPlain ∧
    estimate_tank_size_litres [fishPlain] ≤
      estimate_tank_size_litres ([fishPlain] ++ [fishPlain]) := by
  have hadP : adult_size_or_default fishPlain = 5 := by decide
  have hwfP : waste_factor fishPlain = 1 := by decide
  have hloadP : fish_load fishPlain = 5 / 2 := by
    simp only [fish_load, hadP, hwfP]
    norm_num
  have hb : base_of [fishPlain] ≤ base_of ([fishPlain] ++ [fishPlain]) := by
    have hb1 : base_of [fishPlain] = 10 := by decide
    have hb2 : base_of ([fishPlain] ++ [fishPlain]) = 10 := by decide
    rw [hb1, hb2]
  have hl : (0 : Rat) ≤ fish_load fishPlain := by
    rw [hloadP]
    norm_num
  exact ⟨hb, hl, estimate_tank_size_mono [fishPlain] fishPlain (by simp) hb hl⟩

/-- A three-row selection with two compatible pairs and one incompatible
pair: a × b and a × c are mutual, b × c references neither way. -/
def selABC : List SelectedFish := [⟨fishA, 1⟩, ⟨fishB, 1⟩, ⟨fishC, 1⟩]

/-- C7 counterexample: on selABC the exact ratio is 200/3, whose rounding is
67, but the code's int() truncation produces 66, so the score is not
round(100 × (compatible + 0.5 × semi) / totalPairs). -/
theorem score_strategy_A_not_round :
    score_strategy_A selABC = 66 ∧
    round (100 * ((compatible_pairs selABC : Rat) + (1 / 2) * (semi_pairs selABC : Rat)) /
      ((selABC.length : Rat) * ((selABC.length : Rat) - 1) / 2)) = 67 ∧
    score_strategy_A selABC ≠
      round (100 * ((compatible_pairs selABC : Rat) + (1 / 2) * (semi_pairs selABC : Rat)) /
        ((selABC.length : Rat) * ((selABC.length : Rat) - 1) / 2)) := by
  have hcp : compatible_pairs selABC = 2 := by decide
  have hsp : semi_pairs selABC = 0 := by decide
  have hlen : selABC.length = 3 := rfl
  have hs : score_strategy_A selABC = 66 := by
    simp only [score_strategy_A, hcp, hsp, hlen]
    norm_num [pyInt]
  have hr : round (100 * ((compatible_pairs selABC : Rat) + (1 / 2) * (semi_pairs selABC : Rat)) /
      ((selABC.length : Rat) * ((selABC.length : Rat) - 1) / 2)) = 67 := by
    rw [hcp, hsp, hlen]
    rw [round_eq]
    norm_num
  refine ⟨hs, hr, ?_⟩
  rw [hs, hr]
  norm_num

/-- C7 (amended): for n > 1 the strategy-A score is the floor (int()
truncation) of 100 × (compatiblePairs + 0.5 × semiCompatiblePairs) /
(n(n−1)/2), counted over the upper triangle — truncation, not rounding. -/
theorem score_strategy_A_floor_formula (selected : List SelectedFish)
    (h : 1 < selected.length) :
    score_strategy_A selected =
      ⌊100 * ((compatible_pairs selected : Rat) + (1 / 2) * (semi_pairs selected : Rat)) /
        ((selected.length : Rat) * ((selected.length : Rat) - 1) / 2)⌋ := by
  have h2 : (2 : Rat) ≤ (selected.length : Rat) := by exact_mod_cast h
  have hpos : (0 : Rat) < (selected.length : Rat) * ((selected.length : Rat) - 1) / 2 := by
    apply div_pos
    · apply mul_pos (by linarith) (by linarith)
    · norm_num
  have hnum : (0 : Rat) ≤
      100 * ((compatible_pairs selected : Rat) + (1 / 2) * (semi_pairs selected : Rat)) := by
    positivity
  simp only [score_strategy_A]
  rw [if_pos h, if_pos hpos, pyInt, if_pos (div_nonneg hnum (le_of_lt hpos))]

/-- C7 witness: the amended floor formula evaluated on a concrete two-row
selection. -/
theorem score_strategy_A_floor_formula_witness :
    1 < ([⟨fishA, 1⟩, ⟨fishB, 1⟩] : List SelectedFish).length ∧
    score_strategy_A [⟨fishA, 1⟩, ⟨fishB, 1⟩] =
      ⌊100 * ((compatible_pairs [⟨fishA, 1⟩, ⟨fishB, 1⟩] : Rat) +
          (1 / 2) * (semi_pairs [⟨fishA, 1⟩, ⟨fishB, 1⟩] : Rat)) /
        ((([⟨fishA, 1⟩, ⟨fishB, 1⟩] : List SelectedFish).length : Rat) *
          ((([⟨fishA, 1⟩, ⟨fishB, 1⟩] : List SelectedFish).length : Rat) - 1) / 2)⌋ :=
  ⟨by decide, score_strategy_A_floor_formula [⟨fishA, 1⟩, ⟨fishB, 1⟩] (by decide)⟩
